import Mathlib

/-!
# FlexPhone SIP service — verification development

Shallow embedding of the call/registration logic of
`src/services/SIPService.js` (class `SIPService`) and of
`EnhancedSIPService.sendDTMF` from the enhanced SIP service file.

Modelling conventions:
* JS `Date` values are `Nat` millisecond timestamps, passed explicitly to
  each operation that reads the clock (`new Date()`).
* JS `Date` subtraction (`endTime - connectTime`) is `Int` subtraction.
* Optional / possibly-absent string fields of the user-supplied config are
  plain `String`s where `""` plays the role of the JS falsy values
  (`undefined` and `""` behave identically under `!x` and `x || d`);
  an absent numeric `port` is `0` (falsy in JS).
* `this.activeCalls` is a JS `Map` keyed by call id; it is modelled as a
  `List Call` in insertion order together with `mapGet`/`mapSet`/`mapDelete`
  helpers reproducing `Map.get`/`Map.set`/`Map.delete` semantics.
* `generateCallId` draws random bytes; the fresh id is instead passed as an
  argument to `makeCall`.
* The two `setTimeout` callbacks registered by `simulateCallConnection`
  (ringing after 1 s, connected after 3 s) are modelled as the explicit
  events `callRingingEvent` and `callConnectedEvent`; the JS callbacks
  mutate the captured call object unconditionally, which for a call still
  present in the active map coincides with updating that map entry.
* Fields of a JS call record that no modelled operation ever reads
  (`options`, `remoteName`) are omitted from the `Call` structure.
-/

namespace FlexPhone

/-- A provider preset from `SIPService.sipProviders`. -/
structure ProviderProfile where
  name : String
  defaultServer : String
  defaultPort : Nat
  transport : String
  features : List String
deriving Repr, DecidableEq

/-- The static provider table `this.sipProviders`; `none` models a JS
property lookup that yields `undefined`. -/
def sipProviders : String → Option ProviderProfile
  | "FLEXPBX" =>
      some ⟨"FlexPBX", "flexpbx.local", 5070, "UDP",
        ["calls", "sms", "presence", "conference"]⟩
  | "CALLCENTRIC" =>
      some ⟨"CallCentric", "sip.callcentric.com", 5060, "UDP",
        ["calls", "sms"]⟩
  | "VOIPMS" =>
      some ⟨"VoIP.ms", "server.voip.ms", 5060, "UDP", ["calls", "sms"]⟩
  | "TWILIO" =>
      some ⟨"Twilio", "edge.twilio.com", 5060, "TLS",
        ["calls", "sms", "video"]⟩
  | "GOOGLE_VOICE" =>
      some ⟨"Google Voice", "voice.google.com", 5060, "TLS",
        ["calls", "sms", "voicemail"]⟩
  | "CUSTOM" =>
      some ⟨"Custom SIP Provider", "", 5060, "UDP", ["calls"]⟩
  | _ => none

/-- The user-supplied connection config (argument of `connect`).
`""` (resp. `0` for `port`) stands for an absent / falsy field. -/
structure Config where
  provider : String
  server : String
  port : Nat
  username : String
  password : String
  displayName : String
  transport : String
deriving Repr, DecidableEq

/-- Result of `validateConfig`. -/
inductive ValidationResult where
  | valid : ValidationResult
  | invalid (error : String) : ValidationResult
deriving Repr, DecidableEq

/-- `SIPService.validateConfig`, line for line. -/
def validateConfig (config : Config) : ValidationResult :=
  if config.provider = "" then .invalid "Provider is required"
  else if (sipProviders config.provider).isNone then .invalid "Unknown provider"
  else if config.username = "" then .invalid "Username is required"
  else if config.password = "" then .invalid "Password is required"
  else if config.provider = "CUSTOM" && config.server = "" then
    .invalid "Server is required for custom provider"
  else .valid

/-- The effective config built by `connect` (`sipConfig`). -/
structure SIPConfig where
  provider : String
  server : String
  port : Nat
  username : String
  password : String
  displayName : String
  transport : String
  features : List String
deriving Repr, DecidableEq

/-- Call status strings used by `SIPService`. -/
inductive CallStatus where
  | connecting
  | ringing
  | connected
  | ended
deriving Repr, DecidableEq

/-- A call record as built by `makeCall` / mutated by the other operations.
`duration` is the JS number holding a `Date` difference, hence `Int`. -/
structure Call where
  id : String
  direction : String
  remoteNumber : String
  localNumber : String
  status : CallStatus
  startTime : Nat
  connectTime : Option Nat
  endTime : Option Nat
  duration : Int
  provider : String
deriving Repr, DecidableEq

/-- `Map.get`: first (unique) entry with the given id. -/
def mapGet (l : List Call) (k : String) : Option Call :=
  l.find? (fun c => c.id == k)

/-- `Map.set`: replace in place when the key exists, else append. -/
def mapSet (l : List Call) (k : String) (v : Call) : List Call :=
  if l.any (fun c => c.id == k) then
    l.map (fun c => if c.id == k then v else c)
  else
    l ++ [v]

/-- `Map.delete`: remove every entry with the given id (a well-formed map
has at most one). -/
def mapDelete (l : List Call) (k : String) : List Call :=
  l.filter (fun c => !(c.id == k))

/-- The observable state of a `SIPService` instance. -/
structure SIPState where
  isConnected : Bool
  currentConfig : Option SIPConfig
  registrationState : String
  activeCalls : List Call
  callHistory : List Call
deriving Repr, DecidableEq

/-- The constructor's initial state. -/
def initialState : SIPState :=
  { isConnected := false
    currentConfig := none
    registrationState := "unregistered"
    activeCalls := []
    callHistory := [] }

/-- Outcome of `connect`: the JS result object
`{success, message/config | error}`. -/
inductive ConnectResult where
  | ok (config : SIPConfig) : ConnectResult
  | failure (error : String) : ConnectResult
deriving Repr, DecidableEq

/-- `SIPService.connect`. Validation failure throws, and the catch block
sets `isConnected = false` and `registrationState = 'failed'`.
`simulateSIPRegistration` only sleeps and logs — it never throws — so on a
valid config the function always reaches the success path, storing the
merged `sipConfig` (user `server`/`port`/`displayName`/`transport`
falling back to provider defaults via JS `||`). -/
def connect (s : SIPState) (config : Config) : SIPState × ConnectResult :=
  match validateConfig config with
  | .invalid e =>
      ({ s with isConnected := false, registrationState := "failed" },
       .failure ("Invalid config: " ++ e))
  | .valid =>
      match sipProviders config.provider with
      | none =>
          -- dead branch: `validateConfig` already rejected unknown providers;
          -- in JS the property access on `undefined` would throw into the catch
          ({ s with isConnected := false, registrationState := "failed" },
           .failure "TypeError")
      | some provider =>
          let sipConfig : SIPConfig :=
            { provider := config.provider
              server := if config.server = "" then provider.defaultServer
                        else config.server
              port := if config.port = 0 then provider.defaultPort
                      else config.port
              username := config.username
              password := config.password
              displayName := if config.displayName = "" then config.username
                             else config.displayName
              transport := if config.transport = "" then provider.transport
                           else config.transport
              features := provider.features }
          ({ s with currentConfig := some sipConfig
                    isConnected := true
                    registrationState := "registered" },
           .ok sipConfig)

/-- Outcome of `makeCall`: `{success:true, callId}` or `{success:false, error}`. -/
inductive MakeCallResult where
  | ok (callId : String) : MakeCallResult
  | failure (error : String) : MakeCallResult
deriving Repr, DecidableEq

/-- The call id carried by a `makeCall` result, if any. -/
def MakeCallResult.callId? : MakeCallResult → Option String
  | .ok id => some id
  | .failure _ => none

/-- `SIPService.makeCall`. The guard is only `!this.isConnected`; the fresh
random id from `generateCallId` is the `callId` argument, the clock value of
`new Date()` is `now`. `simulateCallConnection` merely schedules the two
timer events (see `callRingingEvent` / `callConnectedEvent`) and the call is
stored with status `connecting`. -/
def makeCall (s : SIPState) (callId : String) (now : Nat) (number : String) :
    SIPState × MakeCallResult :=
  if !s.isConnected then (s, .failure "Not connected to SIP server")
  else
    match s.currentConfig with
    | none =>
        -- dead in practice (`isConnected` implies a stored config); in JS the
        -- field access on `null` would throw into the catch block
        (s, .failure "TypeError")
    | some cfg =>
        let call : Call :=
          { id := callId
            direction := "outbound"
            remoteNumber := number
            localNumber := cfg.username
            status := .connecting
            startTime := now
            connectTime := none
            endTime := none
            duration := 0
            provider := cfg.provider }
        ({ s with activeCalls := mapSet s.activeCalls callId call },
         .ok callId)

/-- The 1 s `setTimeout` callback of `simulateCallConnection`:
`call.status = 'ringing'`, unconditionally, on the captured call. -/
def callRingingEvent (s : SIPState) (callId : String) : SIPState :=
  { s with activeCalls :=
      s.activeCalls.map (fun c =>
        if c.id == callId then { c with status := .ringing } else c) }

/-- The 3 s `setTimeout` callback of `simulateCallConnection`:
`call.status = 'connected'; call.connectTime = new Date()`, unconditionally,
on the captured call. -/
def callConnectedEvent (s : SIPState) (callId : String) (now : Nat) : SIPState :=
  { s with activeCalls :=
      s.activeCalls.map (fun c =>
        if c.id == callId then
          { c with status := .connected, connectTime := some now }
        else c) }

/-- Outcome of `answerCall` / `hangupCall`. -/
inductive CallOpResult where
  | ok (callId : String) (duration : Int) : CallOpResult
  | failure (error : String) : CallOpResult
deriving Repr, DecidableEq

/-- Whether a call-operation result reports `success: true`. -/
def CallOpResult.success : CallOpResult → Bool
  | .ok _ _ => true
  | .failure _ => false

/-- The status strings interpolated into the `answerCall` error message. -/
def CallStatus.toString : CallStatus → String
  | .connecting => "connecting"
  | .ringing => "ringing"
  | .connected => "connected"
  | .ended => "ended"

/-- `SIPService.answerCall`: unknown id throws `'Call not found'`; a call
not in `ringing` throws `'Cannot answer call in state: …'`; otherwise the
call becomes `connected` with `connectTime = new Date()`. -/
def answerCall (s : SIPState) (callId : String) (now : Nat) :
    SIPState × CallOpResult :=
  match mapGet s.activeCalls callId with
  | none => (s, .failure "Call not found")
  | some call =>
      if call.status ≠ .ringing then
        (s, .failure ("Cannot answer call in state: " ++ call.status.toString))
      else
        let answered : Call :=
          { call with status := .connected, connectTime := some now }
        ({ s with activeCalls := mapSet s.activeCalls callId answered },
         .ok callId call.duration)

/-- `SIPService.hangupCall`: unknown id throws `'Call not found'`;
otherwise sets `status = 'ended'`, `endTime = new Date()`, recomputes
`duration` only when `connectTime` is set, pushes a copy onto
`callHistory`, and deletes the entry from `activeCalls`. -/
def hangupCall (s : SIPState) (callId : String) (now : Nat) :
    SIPState × CallOpResult :=
  match mapGet s.activeCalls callId with
  | none => (s, .failure "Call not found")
  | some call =>
      let ended : Call :=
        { call with
            status := .ended
            endTime := some now
            duration :=
              match call.connectTime with
              | some t => (now : Int) - (t : Int)
              | none => call.duration }
      ({ s with
          activeCalls := mapDelete s.activeCalls callId
          callHistory := s.callHistory ++ [ended] },
       .ok callId ended.duration)

/-- The DTMF frequency table of `SIPService.simulateDTMFTone`; a digit
outside the table plays no tone (the guard `dtmfFreqs[digit]` fails) but
raises no error. -/
def dtmfFreqs : Char → Option (Nat × Nat)
  | '1' => some (697, 1209)
  | '2' => some (697, 1336)
  | '3' => some (697, 1477)
  | '4' => some (770, 1209)
  | '5' => some (770, 1336)
  | '6' => some (770, 1477)
  | '7' => some (852, 1209)
  | '8' => some (852, 1336)
  | '9' => some (852, 1477)
  | '*' => some (941, 1209)
  | '0' => some (941, 1336)
  | '#' => some (941, 1477)
  | _ => none

/-- Result of `SIPService.sendDTMF`. `dispatched` lists the digits handed
to `simulateDTMFTone` (every character of the string, in order), and
`tonesPlayed` the subset that has a frequency entry, i.e. for which an
audible tone is produced. -/
structure DTMFResult where
  success : Bool
  error : Option String
  dispatched : List Char
  tonesPlayed : List Char
deriving Repr, DecidableEq

/-- `SIPService.sendDTMF(digits)`: the only guard is a non-empty active-call
map; there is no per-call state check and no digit validation — the loop
calls `simulateDTMFTone` for every character. The service state is not
mutated. -/
def sendDTMF (s : SIPState) (digits : String) : DTMFResult :=
  if s.activeCalls.isEmpty then
    { success := false, error := some "No active calls"
      dispatched := [], tonesPlayed := [] }
  else
    { success := true, error := none
      dispatched := digits.toList
      tonesPlayed := digits.toList.filter (fun d => (dtmfFreqs d).isSome) }

/-- The slice of an `EnhancedSIPService` call record read by its
`sendDTMF`: the status string and whether a `sipCall` transport handle is
attached. -/
structure EnhancedCall where
  id : String
  status : CallStatus
  hasSipCall : Bool
deriving Repr, DecidableEq

/-- Result of `EnhancedSIPService.sendDTMF`. `sent` lists the digits for
which `sipCall.sendDTMF` was attempted (per-digit failures are caught and
the loop continues, so on the success path every digit is attempted). -/
structure EnhancedDTMFResult where
  success : Bool
  error : Option String
  sent : List Char
deriving Repr, DecidableEq

/-- `EnhancedSIPService.sendDTMF(digits)`: fails on an empty active-call
map (`'No active calls'`), then fails unless the first active call has a
transport handle and status `'connected'` (`'No connected call for
DTMF'`); otherwise every digit is dispatched best-effort. -/
def enhancedSendDTMF (activeCalls : List EnhancedCall) (digits : String) :
    EnhancedDTMFResult :=
  match activeCalls.head? with
  | none => { success := false, error := some "No active calls", sent := [] }
  | some activeCall =>
      if !activeCall.hasSipCall || activeCall.status ≠ .connected then
        { success := false, error := some "No connected call for DTMF"
          sent := [] }
      else
        { success := true, error := none, sent := digits.toList }

/-! ## Concrete fixtures used by witnesses and counterexamples -/

/-- A valid FlexPBX config relying on provider defaults. -/
def aliceConfig : Config :=
  { provider := "FLEXPBX", server := "", port := 0
    username := "alice", password := "secret", displayName := "", transport := "" }

/-- The state after a successful `connect` with `aliceConfig`. -/
def registeredState : SIPState := (connect initialState aliceConfig).1

/-- `registeredState` after `makeCall('5551234')` assigned id `c1`at time 0:
one active call in `connecting`. -/
def oneCallState : SIPState := (makeCall registeredState "c1" 0 "5551234").1

/-- `oneCallState` after the simulated connected event at time 1: the single
active call is `connected` with `connectTime = 1`. -/
def connectedCallState : SIPState := callConnectedEvent oneCallState "c1" 1

/-! ## Map helper lemmas -/

/-- After `Map.delete(k)` a lookup of `k` misses. -/
theorem mapGet_mapDelete (l : List Call) (k : String) :
    mapGet (mapDelete l k) k = none := by
  induction l with
  | nil => rfl
  | cons c t ih =>
      by_cases h : c.id == k
      · simp only [mapDelete, List.filter_cons, h, Bool.not_true, if_false]
        exact ih
      · simp only [mapDelete, List.filter_cons, h, Bool.not_false, if_true,
          mapGet, List.find?_cons, h]
        exact ih

/-- `Map.set` with a key not yet present appends the entry. -/
theorem mapSet_fresh (l : List Call) (k : String) (v : Call)
    (h : mapGet l k = none) : mapSet l k v = l ++ [v] := by
  unfold mapSet
  rw [if_neg]
  intro hany
  rw [List.any_eq_true] at hany
  obtain ⟨c, hc, hck⟩ := hany
  rw [mapGet, List.find?_eq_none] at h
  exact absurd hck (by simpa using h c hc)

/-- On a `.valid` verdict the provider lookup cannot miss: `validateConfig`
rejects unknown providers before anything else can succeed. -/
theorem validateConfig_valid_provider {config : Config}
    (h : validateConfig config = .valid) :
    ∃ provider, sipProviders config.provider = some provider := by
  unfold validateConfig at h
  split_ifs at h with h1 h2 h3 h4 h5
  all_goals
    first
      | exact ValidationResult.noConfusion h
      | (cases hp : sipProviders config.provider with
          | none => exact absurd (by rw [hp]; rfl) h2
          | some provider => exact ⟨provider, rfl⟩)

/-- C1: while the service is not connected/registered, `makeCall` fails with
the not-registered error, the whole state (active calls and history
included) is unchanged, and no call id is returned. -/
theorem makeCall_not_registered_fails (s : SIPState) (callId : String)
    (now : Nat) (number : String) (h : s.isConnected = false) :
    makeCall s callId now number =
      (s, .failure "Not connected to SIP server") ∧
    (makeCall s callId now number).2.callId? = none := by
  have heq : makeCall s callId now number =
      (s, .failure "Not connected to SIP server") := by
    simp [makeCall, h]
  exact ⟨heq, by rw [heq]; rfl⟩

/-- Witness for C1 at the freshly constructed service state. -/
theorem makeCall_not_registered_fails_witness :
    initialState.isConnected = false ∧
    (makeCall initialState "c1" 0 "5551234" =
      (initialState, .failure "Not connected to SIP server") ∧
     (makeCall initialState "c1" 0 "5551234").2.callId? = none) :=
  ⟨rfl, makeCall_not_registered_fails initialState "c1" 0 "5551234" rfl⟩

/-- C7 (counterexample): a config failing validation does not leave the
registrar's observable state unchanged — `connect` on the fresh service
with a missing username flips `registrationState` from `"unregistered"`
to `"failed"`. -/
theorem connect_invalid_mutates_state :
    validateConfig { aliceConfig with username := "" } =
      .invalid "Username is required" ∧
    initialState.registrationState = "unregistered" ∧
    (connect initialState { aliceConfig with username := "" }).1.registrationState
      = "failed" ∧
    (connect initialState { aliceConfig with username := "" }).1 ≠ initialState :=
  ⟨rfl, rfl, rfl, by decide⟩

/-- C7 (amended): on a validation failure `connect` fails fast with the
config error and leaves `currentConfig`, `activeCalls` and `callHistory`
untouched, but overwrites `isConnected` to `false` and
`registrationState` to `"failed"`. -/
theorem connect_invalid_fails_fast (s : SIPState) (config : Config)
    (e : String) (h : validateConfig config = .invalid e) :
    connect s config =
      ({ s with isConnected := false, registrationState := "failed" },
       .failure ("Invalid config: " ++ e)) := by
  unfold connect
  rw [h]

/-- Witness for the amended C7 on a concrete registered state and a config
with a missing password. -/
theorem connect_invalid_fails_fast_witness :
    connect registeredState { aliceConfig with password := "" } =
      ({ registeredState with
          isConnected := false
          registrationState := "failed" },
       .failure ("Invalid config: " ++ "Password is required")) :=
  connect_invalid_fails_fast registeredState
    { aliceConfig with password := "" } "Password is required" rfl

/-- C10: every config that passes `validateConfig` makes `connect` succeed
— the simulated registration never fails, so the catch branch is
unreachable: the service ends `registered` with `isConnected = true`, and
the stored effective config merges the user-supplied
server/port/displayName/transport over the provider preset defaults
(user value wins when present, i.e. non-falsy). -/
theorem connect_valid_always_registers (s : SIPState) (config : Config)
    (h : validateConfig config = .valid) :
    ∃ provider, sipProviders config.provider = some provider ∧
      connect s config =
        ({ s with
            currentConfig := some
              { provider := config.provider
                server := if config.server = "" then provider.defaultServer
                          else config.server
                port := if config.port = 0 then provider.defaultPort
                        else config.port
                username := config.username
                password := config.password
                displayName := if config.displayName = "" then config.username
                               else config.displayName
                transport := if config.transport = "" then provider.transport
                             else config.transport
                features := provider.features }
            isConnected := true
            registrationState := "registered" },
         .ok
            { provider := config.provider
              server := if config.server = "" then provider.defaultServer
                        else config.server
              port := if config.port = 0 then provider.defaultPort
                      else config.port
              username := config.username
              password := config.password
              displayName := if config.displayName = "" then config.username
                             else config.displayName
              transport := if config.transport = "" then provider.transport
                           else config.transport
              features := provider.features }) := by
  obtain ⟨provider, hp⟩ := validateConfig_valid_provider h
  refine ⟨provider, hp, ?_⟩
  unfold connect
  rw [h, hp]

/-- Witness for C10 at `aliceConfig` (FlexPBX preset, all overrides absent). -/
theorem connect_valid_always_registers_witness :
    validateConfig aliceConfig = .valid ∧
    ∃ provider, sipProviders aliceConfig.provider = some provider ∧
      connect initialState aliceConfig =
        ({ initialState with
            currentConfig := some
              { provider := aliceConfig.provider
                server := if aliceConfig.server = "" then provider.defaultServer
                          else aliceConfig.server
                port := if aliceConfig.port = 0 then provider.defaultPort
                        else aliceConfig.port
                username := aliceConfig.username
                password := aliceConfig.password
                displayName := if aliceConfig.displayName = "" then
                                 aliceConfig.username
                               else aliceConfig.displayName
                transport := if aliceConfig.transport = "" then
                               provider.transport
                             else aliceConfig.transport
                features := provider.features }
            isConnected := true
            registrationState := "registered" },
         .ok
            { provider := aliceConfig.provider
              server := if aliceConfig.server = "" then provider.defaultServer
                        else aliceConfig.server
              port := if aliceConfig.port = 0 then provider.defaultPort
                      else aliceConfig.port
              username := aliceConfig.username
              password := aliceConfig.password
              displayName := if aliceConfig.displayName = "" then
                               aliceConfig.username
                             else aliceConfig.displayName
              transport := if aliceConfig.transport = "" then
                             provider.transport
                           else aliceConfig.transport
              features := provider.features }) :=
  ⟨rfl, connect_valid_always_registers initialState aliceConfig rfl⟩

/-- C5 (counterexample): with the active-call count already at the spec's
default `maxConcurrentCalls` of 1, a second `makeCall` is not rejected —
it succeeds and the active-call count grows to 2. -/
theorem makeCall_beyond_limit_succeeds :
    oneCallState.activeCalls.length = 1 ∧
    (makeCall oneCallState "c2" 1 "5550000").2 = .ok "c2" ∧
    (makeCall oneCallState "c2" 1 "5550000").1.activeCalls.length = 2 :=
  ⟨rfl, rfl, rfl⟩

/-- C5 (amended): `makeCall` enforces no concurrency limit at all — while
connected, any call with a fresh id is accepted and appended to the active
set, whatever the current number of active calls. -/
theorem makeCall_no_concurrency_limit (s : SIPState) (cfg : SIPConfig)
    (callId : String) (now : Nat) (number : String)
    (hc : s.isConnected = true) (hcfg : s.currentConfig = some cfg)
    (hfresh : mapGet s.activeCalls callId = none) :
    (makeCall s callId now number).2 = .ok callId ∧
    (makeCall s callId now number).1.activeCalls.length =
      s.activeCalls.length + 1 := by
  unfold makeCall
  rw [hc, hcfg]
  exact ⟨rfl, by simp [mapSet_fresh _ _ _ hfresh]⟩

/-- Witness for the amended C5: a third call on top of two active ones. -/
theorem makeCall_no_concurrency_limit_witness :
    (makeCall (makeCall oneCallState "c2" 1 "5550000").1 "c3" 2 "5550001").2
      = .ok "c3" ∧
    (makeCall (makeCall oneCallState "c2" 1 "5550000").1 "c3" 2 "5550001").1.activeCalls.length
      = (makeCall oneCallState "c2" 1 "5550000").1.activeCalls.length + 1 :=
  makeCall_no_concurrency_limit (makeCall oneCallState "c2" 1 "5550000").1
    _ "c3" 2 "5550001" rfl rfl rfl

/-- C6 (counterexample): `makeCall` with the empty number string is not
rejected — it succeeds and creates a Call whose `remoteNumber` is `""`. -/
theorem makeCall_empty_number_creates_call :
    (makeCall registeredState "c1" 0 "").2 = .ok "c1" ∧
    (mapGet (makeCall registeredState "c1" 0 "").1.activeCalls "c1").map
      Call.remoteNumber = some "" :=
  ⟨rfl, rfl⟩

/-- C6 (amended): `makeCall` performs no number validation: while
connected, an empty number is accepted and a Call with
`remoteNumber = ""` is stored in the active set. -/
theorem makeCall_accepts_empty_number (s : SIPState) (cfg : SIPConfig)
    (callId : String) (now : Nat)
    (hc : s.isConnected = true) (hcfg : s.currentConfig = some cfg) :
    (makeCall s callId now "").2 = .ok callId ∧
    (makeCall s callId now "").1.activeCalls =
      mapSet s.activeCalls callId
        ({ id := callId, direction := "outbound", remoteNumber := "",
           localNumber := cfg.username, status := .connecting,
           startTime := now, connectTime := none, endTime := none,
           duration := 0, provider := cfg.provider }) := by
  unfold makeCall
  rw [hc, hcfg]
  exact ⟨rfl, rfl⟩

/-- Witness for the amended C6 on the registered fixture state. -/
theorem makeCall_accepts_empty_number_witness :
    (makeCall registeredState "c9" 4 "").2 = .ok "c9" ∧
    (makeCall registeredState "c9" 4 "").1.activeCalls =
      mapSet registeredState.activeCalls "c9"
        ({ id := "c9", direction := "outbound", remoteNumber := "",
           localNumber := "alice", status := .connecting,
           startTime := 4, connectTime := none, endTime := none,
           duration := 0, provider := "FLEXPBX" }) := by
  have h := makeCall_accepts_empty_number registeredState
    ({ provider := "FLEXPBX", server := "flexpbx.local", port := 5070,
       username := "alice", password := "secret", displayName := "alice",
       transport := "UDP",
       features := ["calls", "sms", "presence", "conference"] })
    "c9" 4 rfl rfl
  exact h

/-- `oneCallState` after the simulated ringing event: the single active
call is `ringing`. -/
def ringingCallState : SIPState := callRingingEvent oneCallState "c1"

/-- `ringingCallState` after `answerCall` at time 2: the call is
`connected` with `connectTime = 2`. -/
def answeredState : SIPState := (answerCall ringingCallState "c1" 2).1

/-- C2 (counterexample): in `SIPService`, `sendDTMF` on a service whose
single active call is still `connecting` (not `Connected`) does not fail —
it succeeds and dispatches the digit. -/
theorem sendDTMF_nonconnected_call_dispatches :
    (mapGet oneCallState.activeCalls "c1").map Call.status =
      some CallStatus.connecting ∧
    (sendDTMF oneCallState "1").success = true ∧
    (sendDTMF oneCallState "1").dispatched = ['1'] :=
  ⟨rfl, rfl, rfl⟩

/-- C2 (amended): the only `sendDTMF` precondition enforced by the basic
`SIPService` is a non-empty active-call set (failing with
`'No active calls'` and dispatching nothing when it is empty, and
dispatching every digit regardless of the call's state otherwise);
only `EnhancedSIPService.sendDTMF` additionally fails — with
`'No connected call for DTMF'` and zero digits sent — when the designated
(first) call lacks a transport handle or is not `connected`. -/
theorem sendDTMF_state_guards (s : SIPState) (digits : String)
    (activeCalls : List EnhancedCall) (c : EnhancedCall) :
    (s.activeCalls = [] →
      sendDTMF s digits =
        { success := false, error := some "No active calls",
          dispatched := [], tonesPlayed := [] }) ∧
    (s.activeCalls ≠ [] → (sendDTMF s digits).success = true ∧
      (sendDTMF s digits).dispatched = digits.toList) ∧
    (enhancedSendDTMF [] digits =
      { success := false, error := some "No active calls", sent := [] }) ∧
    (activeCalls.head? = some c →
      (c.hasSipCall = false ∨ c.status ≠ .connected) →
      enhancedSendDTMF activeCalls digits =
        { success := false, error := some "No connected call for DTMF",
          sent := [] }) := by
  refine ⟨?_, ?_, ?_, ?_⟩
  · intro h
    simp [sendDTMF, h]
  · intro h
    have hne : s.activeCalls.isEmpty = false := by
      cases hc : s.activeCalls with
      | nil => exact absurd hc h
      | cons a t => rfl
    simp [sendDTMF, hne]
  · rfl
  · intro hhead hbad
    rcases hbad with hb | hb
    · simp [enhancedSendDTMF, hhead, hb]
    · simp [enhancedSendDTMF, hhead, hb]

/-- Witness for the amended C2: empty basic service, non-empty basic
service with a `connecting` call, empty enhanced service, and an enhanced
service whose first call is still `ringing`. -/
theorem sendDTMF_state_guards_witness :
    sendDTMF initialState "12" =
      { success := false, error := some "No active calls",
        dispatched := [], tonesPlayed := [] } ∧
    ((sendDTMF oneCallState "12").success = true ∧
     (sendDTMF oneCallState "12").dispatched = "12".toList) ∧
    enhancedSendDTMF [] "12" =
      { success := false, error := some "No active calls", sent := [] } ∧
    enhancedSendDTMF [{ id := "c1", status := .ringing, hasSipCall := true }] "12" =
      { success := false, error := some "No connected call for DTMF",
        sent := [] } :=
  ⟨(sendDTMF_state_guards initialState "12" [] { id := "", status := .ended, hasSipCall := false }).1 rfl,
   (sendDTMF_state_guards oneCallState "12" []
      { id := "", status := .ended, hasSipCall := false }).2.1 (by decide),
   (sendDTMF_state_guards initialState "12"
      [{ id := "c1", status := .ringing, hasSipCall := true }]
      { id := "c1", status := .ringing, hasSipCall := true }).2.2.1,
   (sendDTMF_state_guards initialState "12"
      [{ id := "c1", status := .ringing, hasSipCall := true }]
      { id := "c1", status := .ringing, hasSipCall := true }).2.2.2
      rfl (Or.inr (by decide))⟩

/-- C3 (counterexample): on a `connected` call, `sendDTMF("1X2")` is not
rejected: the request succeeds and tones for `'1'` and `'2'` are played
(the invalid `'X'` is silently skipped — per-digit, not all-or-nothing). -/
theorem sendDTMF_invalid_digit_partial_send :
    (mapGet connectedCallState.activeCalls "c1").map Call.status =
      some CallStatus.connected ∧
    (sendDTMF connectedCallState "1X2").success = true ∧
    (sendDTMF connectedCallState "1X2").dispatched = ['1', 'X', '2'] ∧
    (sendDTMF connectedCallState "1X2").tonesPlayed = ['1', '2'] :=
  ⟨rfl, rfl, rfl, rfl⟩

/-- C3 (amended): `sendDTMF` performs no digit validation at all: with any
active call present it succeeds, hands every character to
`simulateDTMFTone` in order, and a tone is produced exactly for the
characters in the frequency table `{0-9, *, #}` (note: `A`-`D` have no
entry in `SIPService`'s table) — invalid characters are skipped
individually, they never abort the request. -/
theorem sendDTMF_per_digit_best_effort (s : SIPState) (digits : String)
    (h : s.activeCalls ≠ []) :
    sendDTMF s digits =
      { success := true, error := none,
        dispatched := digits.toList,
        tonesPlayed := digits.toList.filter (fun d => (dtmfFreqs d).isSome) } := by
  have hne : s.activeCalls.isEmpty = false := by
    cases hc : s.activeCalls with
    | nil => exact absurd hc h
    | cons a t => rfl
  simp [sendDTMF, hne]

/-- Witness for the amended C3 at `digits = "1X2"`. -/
theorem sendDTMF_per_digit_best_effort_witness :
    connectedCallState.activeCalls ≠ [] ∧
    sendDTMF connectedCallState "1X2" =
      { success := true, error := none,
        dispatched := "1X2".toList,
        tonesPlayed := "1X2".toList.filter (fun d => (dtmfFreqs d).isSome) } :=
  ⟨by decide, sendDTMF_per_digit_best_effort connectedCallState "1X2" (by decide)⟩

/-- C4 (counterexample): `hangupCall` is not idempotent at the interface —
the second hangup on the same id returns `success:false` with
`'Call not found'` (an error result), not success with a not-found note. -/
theorem hangup_second_call_errors :
    (hangupCall oneCallState "c1" 5).2.success = true ∧
    (hangupCall (hangupCall oneCallState "c1" 5).1 "c1" 6).2 =
      .failure "Call not found" ∧
    (hangupCall (hangupCall oneCallState "c1" 5).1 "c1" 6).2.success = false :=
  ⟨rfl, rfl, rfl⟩

/-- C4 (amended): the first `hangupCall` on an active call succeeds, sets
`endTime`, and moves the call (status `ended`) into history; a second
hangup on the same id — like any unknown id — returns a `success:false`
result with error `'Call not found'`, leaves the state unchanged, and in
particular adds no duplicate history entry. -/
theorem hangup_first_ok_second_not_found (s : SIPState) (callId : String)
    (t1 t2 : Nat) (call : Call)
    (h : mapGet s.activeCalls callId = some call) :
    (hangupCall s callId t1).2.success = true ∧
    (∃ ended, (hangupCall s callId t1).1.callHistory =
        s.callHistory ++ [ended] ∧
      ended.status = .ended ∧ ended.endTime = some t1) ∧
    hangupCall (hangupCall s callId t1).1 callId t2 =
      ((hangupCall s callId t1).1, .failure "Call not found") := by
  refine ⟨?_, ?_, ?_⟩
  · simp [hangupCall, h, CallOpResult.success]
  · simp only [hangupCall, h]
    exact ⟨_, rfl, rfl, rfl⟩
  · have h2 : mapGet (mapDelete s.activeCalls callId) callId = none :=
      mapGet_mapDelete _ _
    simp [hangupCall, h, h2]

/-- Witness for the amended C4 on the one-call fixture. -/
theorem hangup_first_ok_second_not_found_witness :
    (hangupCall oneCallState "c1" 5).2.success = true ∧
    (∃ ended, (hangupCall oneCallState "c1" 5).1.callHistory =
        oneCallState.callHistory ++ [ended] ∧
      ended.status = .ended ∧ ended.endTime = some 5) ∧
    hangupCall (hangupCall oneCallState "c1" 5).1 "c1" 6 =
      ((hangupCall oneCallState "c1" 5).1, .failure "Call not found") :=
  hangup_first_ok_second_not_found oneCallState "c1" 5 6
    { id := "c1", direction := "outbound", remoteNumber := "5551234",
      localNumber := "alice", status := .connecting, startTime := 0,
      connectTime := none, endTime := none, duration := 0,
      provider := "FLEXPBX" } rfl

/-- C8 (counterexample): `connectTime` is not set at most once, nor only at
the answer transition into `Connected`: answering the ringing outbound
call at time 2 sets `connectTime = 2`, and the still-pending simulated
connected event then overwrites it to `3` on the already-`connected`
call. -/
theorem connectTime_set_twice :
    (mapGet answeredState.activeCalls "c1").map Call.status =
      some CallStatus.connected ∧
    (mapGet answeredState.activeCalls "c1").map Call.connectTime =
      some (some 2) ∧
    (mapGet (callConnectedEvent answeredState "c1" 3).activeCalls "c1").map
      Call.connectTime = some (some 3) :=
  ⟨rfl, rfl, rfl⟩

/-- C8 (amended): `answerCall` succeeds only from `ringing` — an unknown
id fails with `'Call not found'`, any other state with
`'Cannot answer call in state: …'` — and on success it transitions the
call to `connected` and sets `connectTime`; `connectTime` is however not
set only by this transition: the pending simulated connected event of an
outbound call sets it as well (see the counterexample), so it can be
written a second time after an answer. -/
theorem answerCall_requires_ringing (s : SIPState) (callId : String)
    (now : Nat) :
    (mapGet s.activeCalls callId = none →
      answerCall s callId now = (s, .failure "Call not found")) ∧
    (∀ call, mapGet s.activeCalls callId = some call →
      call.status ≠ .ringing →
      answerCall s callId now =
        (s, .failure ("Cannot answer call in state: " ++
          call.status.toString))) ∧
    (∀ call, mapGet s.activeCalls callId = some call →
      call.status = .ringing →
      (answerCall s callId now).2 = .ok callId call.duration ∧
      (answerCall s callId now).1.activeCalls =
        mapSet s.activeCalls callId
          ({ call with status := .connected, connectTime := some now })) := by
  refine ⟨?_, ?_, ?_⟩
  · intro h
    simp [answerCall, h]
  · intro call hfind hst
    simp [answerCall, hfind, hst]
  · intro call hfind hst
    refine ⟨?_, ?_⟩ <;> simp [answerCall, hfind, hst]

/-- Witness for the amended C8: all three branches at concrete states —
unknown id, a `connecting` call, and the ringing fixture call. -/
theorem answerCall_requires_ringing_witness :
    answerCall initialState "nope" 1 =
      (initialState, .failure "Call not found") ∧
    answerCall oneCallState "c1" 1 =
      (oneCallState, .failure ("Cannot answer call in state: " ++
        CallStatus.connecting.toString)) ∧
    ((answerCall ringingCallState "c1" 2).2 = .ok "c1" 0 ∧
     (answerCall ringingCallState "c1" 2).1.activeCalls =
       mapSet ringingCallState.activeCalls "c1"
         ({ id := "c1", direction := "outbound", remoteNumber := "5551234",
            localNumber := "alice", status := .connected, startTime := 0,
            connectTime := some 2, endTime := none, duration := 0,
            provider := "FLEXPBX" })) := by
  refine ⟨?_, ?_, ?_⟩
  · exact (answerCall_requires_ringing initialState "nope" 1).1 rfl
  · exact (answerCall_requires_ringing oneCallState "c1" 1).2.1
      { id := "c1", direction := "outbound", remoteNumber := "5551234",
        localNumber := "alice", status := .connecting, startTime := 0,
        connectTime := none, endTime := none, duration := 0,
        provider := "FLEXPBX" } rfl (by decide)
  · exact (answerCall_requires_ringing ringingCallState "c1" 2).2.2
      { id := "c1", direction := "outbound", remoteNumber := "5551234",
        localNumber := "alice", status := .ringing, startTime := 0,
        connectTime := none, endTime := none, duration := 0,
        provider := "FLEXPBX" } rfl rfl

/-- C9: once `hangupCall` sets `endTime`, the history entry's `duration`
equals `endTime - connectTime` when a connect time exists and the stored
initial `0` otherwise; with a monotone clock (`connectTime ≤ now`) the
duration is never negative, and it is `0` whenever `connectTime` was
still `null` at hangup. -/
theorem hangup_duration_correct (s : SIPState) (callId : String) (now : Nat)
    (call : Call)
    (hfind : mapGet s.activeCalls callId = some call)
    (hmono : ∀ t, call.connectTime = some t → t ≤ now)
    (hinit : call.connectTime = none → call.duration = 0) :
    ∃ ended,
      hangupCall s callId now =
        ({ s with
            activeCalls := mapDelete s.activeCalls callId
            callHistory := s.callHistory ++ [ended] },
         .ok callId ended.duration) ∧
      ended.endTime = some now ∧
      ended.duration =
        (match call.connectTime with
         | some t => (now : Int) - (t : Int)
         | none => 0) ∧
      0 ≤ ended.duration := by
  refine ⟨{ call with
             status := .ended
             endTime := some now
             duration := match call.connectTime with
                         | some t => (now : Int) - (t : Int)
                         | none => call.duration }, ?_, rfl, ?_, ?_⟩
  · unfold hangupCall
    rw [hfind]
  · cases hc : call.connectTime with
    | none => simpa [hc] using hinit hc
    | some t => simp [hc]
  · cases hc : call.connectTime with
    | none => simp [hc, hinit hc]
    | some t =>
        simp only [hc]
        exact Int.sub_nonneg.mpr (by exact_mod_cast hmono t hc)

/-- Witness for C9 at the connected fixture call (`connectTime = 1`,
hangup at `5`, so `duration = 4`). -/
theorem hangup_duration_correct_witness :
    ∃ ended,
      hangupCall connectedCallState "c1" 5 =
        ({ connectedCallState with
            activeCalls := mapDelete connectedCallState.activeCalls "c1"
            callHistory := connectedCallState.callHistory ++ [ended] },
         .ok "c1" ended.duration) ∧
      ended.endTime = some 5 ∧
      ended.duration =
        (match (some 1 : Option Nat) with
         | some t => (5 : Int) - (t : Int)
         | none => 0) ∧
      0 ≤ ended.duration :=
  hangup_duration_correct connectedCallState "c1" 5
    { id := "c1", direction := "outbound", remoteNumber := "5551234",
      localNumber := "alice", status := .connected, startTime := 0,
      connectTime := some 1, endTime := none, duration := 0,
      provider := "FLEXPBX" } rfl
    (by intro t ht; simp at ht; omega)
    (by intro hn; simp at hn)

end FlexPhone
